import Mathlib

/-!
Verification of the session-activity summarization pipeline described by the
repository's specification, together with the QA runner's bookkeeping logic
from `src/qa_test_runner.py`.

The pipeline functions (`analyze_session_activity`, `generate_summary`,
`update_project_status_timeline`) live in an external `stop` module that the
repository imports but does not ship; they are modelled here from the
specification.  The runner bookkeeping (`StopHookQARunner.run_test`,
`StopHookQARunner.generate_report`) is embedded from the source.
-/

namespace StopHook

/-- Modelled from the spec: a Timeline Entry of `PROJECT_STATUS.md`
(`stop.update_project_status_timeline` is not shipped in src/).  An entry is
a heading line containing the fixed marker "## Session Export - " followed by
a timestamp, and a body holding the caller-supplied summary verbatim. -/
structure Entry where
  timestamp : String
  summary : String
deriving DecidableEq, Repr

/-- Modelled from the spec: the filesystem state the Timeline Updater touches.
`dirWritable d` means directory `d` exists and is writable; `statusFile d`
is the parsed content of `d/PROJECT_STATUS.md` (`none` when the file does
not exist), kept as the ordered list of appended entries. -/
structure FS where
  dirWritable : String → Bool
  statusFile : String → Option (List Entry)

/-- Fixed marker that starts every timeline entry heading. -/
def entryMarker : String := "## Session Export - "

/-- Modelled from the spec: the minimal header written when the status file is
first created. -/
def fileHeader : String := "# Project Status\n\n"

/-- Renders one timeline entry: the heading line with the marker and the
timestamp, then the summary text verbatim. -/
def renderEntry (e : Entry) : String :=
  entryMarker ++ e.timestamp ++ "\n" ++ e.summary ++ "\n"

/-- Renders a list of timeline entries in order. -/
def renderEntries : List Entry → String
  | [] => ""
  | e :: es => renderEntry e ++ renderEntries es

/-- Renders the whole status file: the minimal header followed by every entry
in append order. -/
def renderFile (es : List Entry) : String :=
  fileHeader ++ renderEntries es

/-- Modelled from the spec: `update_project_status_timeline(dir, summary)`
(the `stop` module is not shipped in src/).  If the directory does not exist
or is not writable it returns failure (`false`) and changes nothing; otherwise
it creates the file if absent and appends one new entry holding the summary
verbatim, returning success (`true`).  The timestamp is passed explicitly
(the Python code derives it from the wall clock). -/
def update_timeline (fs : FS) (dir : String) (summary : String)
    (ts : String) : Bool × FS :=
  if fs.dirWritable dir then
    let old := (fs.statusFile dir).getD []
    (true,
      { fs with
        statusFile := fun d =>
          if d = dir then some (old ++ [⟨ts, summary⟩]) else fs.statusFile d })
  else
    (false, fs)

/-- A concrete filesystem with a single writable directory `/tmp/qa` holding
no status file, used by witnesses. -/
def sampleFS : FS :=
  { dirWritable := fun d => d = "/tmp/qa"
    statusFile := fun _ => none }

/-- Modelled from the spec: one tool-use event of a `pre_tool_use.json` log:
the tool name and, when the tool input carries one, a file path. -/
structure ToolEvent where
  tool_name : String
  file_path : Option String
deriving DecidableEq, Repr

/-- Modelled from the spec: one prompt event of a `user_prompt_submit.json`
log: the user prompt text. -/
structure PromptEvent where
  prompt : String
deriving DecidableEq, Repr

/-- Modelled from the spec: the state of one per-session log file, which may
be missing, present but malformed (failing to parse), or a parsed sequence
of event records. -/
inductive LogFile (α : Type) where
  | missing : LogFile α
  | malformed : LogFile α
  | events : List α → LogFile α
deriving DecidableEq, Repr

/-- Modelled from the spec: the per-session log directory, holding the
pre-tool-use event log and the user-prompt event log. -/
structure SessionDir where
  pre_tool_use : LogFile ToolEvent
  user_prompt_submit : LogFile PromptEvent
deriving DecidableEq, Repr

/-- Modelled from the spec: the Session Activity Record produced by the
analyzer: set of tool names, set of modified file paths, ordered command
list, last prompt text, notable actions, optional test outcome summary and
an error flag. -/
structure ActivityRecord where
  tools_used : List String
  files_modified : List String
  commands_run : List String
  last_prompt : String
  key_actions : List String
  test_results : Option String
  errors_encountered : Bool
deriving DecidableEq, Repr

/-- The all-default Activity Record: every collection empty, empty prompt,
no test results, no errors. -/
def emptyRecord : ActivityRecord :=
  { tools_used := []
    files_modified := []
    commands_run := []
    last_prompt := ""
    key_actions := []
    test_results := none
    errors_encountered := false }

/-- Events recovered from one log file: a missing or malformed file
contributes zero events (the parse failure is caught locally). -/
def LogFile.eventsOrEmpty {α : Type} : LogFile α → List α
  | .missing => []
  | .malformed => []
  | .events es => es

/-- Modelled from the spec: `analyze_session_activity(session_id)` (the
`stop` module is not shipped in src/).  The log root maps session identifiers
to log directories; a missing directory or missing/malformed log files
degrade to the all-default record.  Each valid tool event records its tool
name (deduplicated, as a set) and, when present, its file path; the last
prompt event supplies `last_prompt`. -/
def analyze (logRoot : String → Option SessionDir) (sid : String) :
    ActivityRecord :=
  match logRoot sid with
  | none => emptyRecord
  | some dir =>
    let toolEvents := dir.pre_tool_use.eventsOrEmpty
    let promptEvents := dir.user_prompt_submit.eventsOrEmpty
    { tools_used := (toolEvents.map (·.tool_name)).dedup
      files_modified := (toolEvents.filterMap (·.file_path)).dedup
      commands_run := []
      last_prompt := (promptEvents.getLast?).elim "" (·.prompt)
      key_actions := []
      test_results := none
      errors_encountered := false }

/-- Decides whether the character list `needle` occurs as a contiguous block
inside `hay`. -/
def subOccurs (needle : List Char) : List Char → Bool
  | [] => needle.isEmpty
  | c :: rest => needle.isPrefixOf (c :: rest) || subOccurs needle rest

/-- Decides whether the string `needle` occurs verbatim inside `hay`. -/
def containsSub (hay needle : String) : Bool :=
  subOccurs needle.data hay.data

/-- Decides whether the string `t` is a suffix of the string `s` (a file
extension check). -/
def strEndsWith (s t : String) : Bool :=
  t.data.isSuffixOf s.data

/-- Modelled from the spec: the UI/component rule fires when a modified file
has a component-markup extension or the prompt mentions UI/component terms. -/
def uiCond (a : ActivityRecord) : Bool :=
  a.files_modified.any
      (fun f => strEndsWith f ".tsx" || strEndsWith f ".jsx"
        || strEndsWith f ".vue")
    || containsSub a.last_prompt "component" || containsSub a.last_prompt "UI"

/-- Modelled from the spec: the documentation rule fires when a modified file
is markdown or the prompt mentions documentation. -/
def docCond (a : ActivityRecord) : Bool :=
  a.files_modified.any (fun f => strEndsWith f ".md")
    || containsSub a.last_prompt "doc"

/-- Modelled from the spec: the hook rule fires when a modified file or the
prompt references hook-development artifacts. -/
def hookCond (a : ActivityRecord) : Bool :=
  a.files_modified.any (fun f => containsSub f "hook")
    || containsSub a.last_prompt "hook"

/-- Modelled from the spec: the fall-through generic activity description,
derived from tool and file counts; an all-empty record still yields a
non-empty "no activity" style summary. -/
def genericSummary (a : ActivityRecord) : String :=
  if a.tools_used.isEmpty && a.files_modified.isEmpty then
    "Session with no significant activity"
  else
    "Worked with " ++ toString a.tools_used.length ++ " tools across "
      ++ toString a.files_modified.length ++ " files"

/-- Modelled from the spec: `generate_summary(record)` (the `stop` module is
not shipped in src/).  The heuristic rules are tried in priority order —
UI/component, documentation, hook development — and the first match wins,
falling through to the generic description. -/
def generate_summary (a : ActivityRecord) : String :=
  if uiCond a then "Developed UI components"
  else if docCond a then "Worked on documentation"
  else if hookCond a then "Worked on hook development"
  else genericSummary a

/-- The UI-work fixture record of `test_summary_generation_patterns`. -/
def uiRecord : ActivityRecord :=
  { tools_used := ["Magic", "Write"]
    files_modified := ["Button.tsx", "Form.vue"]
    commands_run := []
    last_prompt := "create a button component"
    key_actions := []
    test_results := none
    errors_encountered := false }

/-- The documentation-work fixture record of
`test_summary_generation_patterns`. -/
def docRecord : ActivityRecord :=
  { tools_used := ["Write", "Edit"]
    files_modified := ["README.md", "api.md"]
    commands_run := []
    last_prompt := "update the documentation"
    key_actions := []
    test_results := none
    errors_encountered := false }

/-- The hook-development fixture record of
`test_summary_generation_patterns`. -/
def hookRecord : ActivityRecord :=
  { tools_used := ["Edit", "Bash"]
    files_modified := ["hooks/stop.py"]
    commands_run := ["python test.py"]
    last_prompt := "fix the stop hook"
    key_actions := []
    test_results := none
    errors_encountered := false }

/-- A concrete log root holding a single session `s1` whose pre-tool-use
log is malformed, used by witnesses. -/
def malformedRoot : String → Option SessionDir := fun sid =>
  if sid = "s1" then some ⟨.malformed, .missing⟩ else none

/-- A log root with no session at all, used by witnesses. -/
def emptyRoot : String → Option SessionDir := fun _ => none

/-- A log root agreeing with `malformedRoot` at `s1` but differing
elsewhere, used by witnesses. -/
def otherRoot : String → Option SessionDir := fun sid =>
  if sid = "s1" then some ⟨.malformed, .missing⟩
  else some ⟨.missing, .missing⟩

/-- A string append is non-empty whenever its left part is. -/
theorem append_left_ne_empty (s t : String) (h : s ≠ "") : s ++ t ≠ "" := by
  intro he
  apply h
  have hl := congrArg String.length he
  rw [String.length_append] at hl
  have hs : s.length = 0 := by
    have : String.length "" = 0 := rfl
    omega
  have hd : s.data.length = 0 := hs
  cases s with
  | mk d => cases d with
    | nil => rfl
    | cons c cs => simp at hd

/-- Rendering distributes over list append. -/
theorem renderEntries_append (es fs : List Entry) :
    renderEntries (es ++ fs) = renderEntries es ++ renderEntries fs := by
  induction es with
  | nil => simp [renderEntries]
  | cons e es ih => simp [renderEntries, ih, String.append_assoc]

end StopHook

open StopHook

/-- C3: for a session identifier with no log directory, or whose log files
are both missing, the analyzer returns the all-default Activity Record:
every collection empty, empty last prompt, no test results and
`errors_encountered = false`; no error is raised (the function is total). -/
theorem C3_empty_session (logRoot : String → Option SessionDir) (sid : String)
    (h : logRoot sid = none ∨ logRoot sid = some ⟨.missing, .missing⟩) :
    analyze logRoot sid = emptyRecord := by
  rcases h with h | h <;>
    simp [analyze, h, emptyRecord, LogFile.eventsOrEmpty]

/-- Witness for C3 at a concrete nonexistent session identifier. -/
theorem C3_empty_session_witness :
    analyze emptyRoot "nonexistent_session_id" = emptyRecord :=
  C3_empty_session emptyRoot "nonexistent_session_id" (Or.inl rfl)

/-- C4: a malformed pre-tool-use log contributes zero events: whatever the
state of the prompt log, the analyzer returns empty `tools_used` and
`files_modified` and no exception reaches the caller (the function is
total). -/
theorem C4_malformed_log (logRoot : String → Option SessionDir) (sid : String)
    (pf : LogFile PromptEvent)
    (h : logRoot sid = some ⟨.malformed, pf⟩) :
    (analyze logRoot sid).tools_used = [] ∧
    (analyze logRoot sid).files_modified = [] := by
  constructor <;> simp [analyze, h, LogFile.eventsOrEmpty]

/-- Witness for C4 at the concrete malformed session. -/
theorem C4_malformed_log_witness :
    (analyze malformedRoot "s1").tools_used = [] ∧
    (analyze malformedRoot "s1").files_modified = [] :=
  C4_malformed_log malformedRoot "s1" .missing (by decide)

/-- C5: the summary generator is total and never returns the empty string,
even on the all-default Activity Record. -/
theorem C5_summary_nonempty (a : ActivityRecord) :
    generate_summary a ≠ "" := by
  unfold generate_summary genericSummary
  split
  · decide
  split
  · decide
  split
  · decide
  split
  · decide
  · apply append_left_ne_empty
    apply append_left_ne_empty
    apply append_left_ne_empty
    apply append_left_ne_empty
    decide

/-- C6: the heuristic rules fire in priority order with first match winning:
a UI/component match puts a UI/component term in the output; otherwise a
documentation match puts a documentation term there; otherwise a hook match
puts a hook term there; otherwise the output is the generic activity
description. -/
theorem C6_priority_rules (a : ActivityRecord) :
    (uiCond a = true →
      containsSub (generate_summary a) "component" = true ∧
      containsSub (generate_summary a) "UI" = true) ∧
    (uiCond a = false → docCond a = true →
      containsSub (generate_summary a) "doc" = true) ∧
    (uiCond a = false → docCond a = false → hookCond a = true →
      containsSub (generate_summary a) "hook" = true) ∧
    (uiCond a = false → docCond a = false → hookCond a = false →
      generate_summary a = genericSummary a) := by
  refine ⟨fun h1 => ?_, fun h1 h2 => ?_, fun h1 h2 h3 => ?_,
    fun h1 h2 h3 => ?_⟩
  · simp [generate_summary, h1]
    decide
  · simp [generate_summary, h1, h2]
    decide
  · simp [generate_summary, h1, h2, h3]
    decide
  · simp [generate_summary, h1, h2, h3]

/-- Witness for C6 at the three fixture records of
`test_summary_generation_patterns`. -/
theorem C6_priority_rules_witness :
    containsSub (generate_summary uiRecord) "component" = true ∧
    containsSub (generate_summary docRecord) "doc" = true ∧
    containsSub (generate_summary hookRecord) "hook" = true :=
  ⟨((C6_priority_rules uiRecord).1 (by decide)).1,
   (C6_priority_rules docRecord).2.1 (by decide) (by decide),
   (C6_priority_rules hookRecord).2.2.1 (by decide) (by decide) (by decide)⟩

open StopHook

/-- C1: on a writable directory with no pre-existing status file, writing "X"
then "Y" yields exactly the two entries, "X" before "Y", each summary
occurring exactly once; and in general every successful call appends exactly
one entry to whatever was there, overwriting nothing. -/
theorem C1_append_only (fs : FS) (D ts1 ts2 : String)
    (hw : fs.dirWritable D = true)
    (h0 : fs.statusFile D = none) :
    let r1 := update_timeline fs D "X" ts1
    let r2 := update_timeline r1.2 D "Y" ts2
    r1.1 = true ∧ r2.1 = true ∧
    r2.2.statusFile D = some [⟨ts1, "X"⟩, ⟨ts2, "Y"⟩] ∧
    (∀ fs' dir s t, fs'.dirWritable dir = true →
      (update_timeline fs' dir s t).1 = true ∧
      (update_timeline fs' dir s t).2.statusFile dir =
        some ((fs'.statusFile dir).getD [] ++ [⟨t, s⟩])) := by
  refine ⟨?_, ?_, ?_, ?_⟩
  · simp [update_timeline, hw]
  · simp [update_timeline, hw]
  · simp [update_timeline, hw, h0]
  · intro fs' dir s t hw'
    simp [update_timeline, hw']

/-- Witness for C1 at a concrete filesystem. -/
theorem C1_append_only_witness :
    let fs := sampleFS
    let r1 := update_timeline fs "/tmp/qa" "X" "t1"
    let r2 := update_timeline r1.2 "/tmp/qa" "Y" "t2"
    r1.1 = true ∧ r2.1 = true ∧
    r2.2.statusFile "/tmp/qa" = some [⟨"t1", "X"⟩, ⟨"t2", "Y"⟩] ∧
    (∀ fs' dir s t, fs'.dirWritable dir = true →
      (update_timeline fs' dir s t).1 = true ∧
      (update_timeline fs' dir s t).2.statusFile dir =
        some ((fs'.statusFile dir).getD [] ++ [⟨t, s⟩])) :=
  C1_append_only sampleFS "/tmp/qa" "t1" "t2" rfl rfl

/-- C2: on a directory that does not exist (is not writable), the update
returns failure and leaves the filesystem untouched, so in particular no
file is created; no exception reaches the caller (the function is total). -/
theorem C2_invalid_directory (fs : FS) (D summary ts : String)
    (h : fs.dirWritable D = false) :
    (update_timeline fs D summary ts).1 = false ∧
    (update_timeline fs D summary ts).2 = fs := by
  constructor <;> simp [update_timeline, h]

/-- Witness for C2 at a concrete nonexistent deep path. -/
theorem C2_invalid_directory_witness :
    (update_timeline sampleFS "/nonexistent/invalid/path" "anything" "t").1
      = false ∧
    (update_timeline sampleFS "/nonexistent/invalid/path" "anything" "t").2
      = sampleFS :=
  C2_invalid_directory sampleFS "/nonexistent/invalid/path" "anything" "t"
    (by decide)

/-- C7: for every summary string (Unicode included) and every writable
directory (special characters included), a successful update stores the
summary verbatim: the new file is the old one plus one entry whose rendered
text appends the heading and the summary unchanged, and the summary's exact
character sequence occurs in the rendered file. -/
theorem C7_round_trip (fs : FS) (D s ts : String)
    (hw : fs.dirWritable D = true) :
    (update_timeline fs D s ts).1 = true ∧
    (update_timeline fs D s ts).2.statusFile D =
      some ((fs.statusFile D).getD [] ++ [⟨ts, s⟩]) ∧
    renderFile ((fs.statusFile D).getD [] ++ [⟨ts, s⟩]) =
      renderFile ((fs.statusFile D).getD []) ++ renderEntry ⟨ts, s⟩ ∧
    s.data <:+:
      (renderFile ((fs.statusFile D).getD [] ++ [⟨ts, s⟩])).data := by
  refine ⟨?_, ?_, ?_, ?_⟩
  · simp [update_timeline, hw]
  · simp [update_timeline, hw]
  · simp [renderFile, renderEntries_append, renderEntries,
      String.append_assoc]
  · refine ⟨(fileHeader ++
        renderEntries ((fs.statusFile D).getD []) ++ entryMarker ++ ts
        ++ "\n").data, "\n".data, ?_⟩
    simp [renderFile, renderEntries_append, renderEntries, renderEntry,
      String.data_append, List.append_assoc]

/-- Witness for C7 at a Unicode summary in a concrete directory. -/
theorem C7_round_trip_witness :
    (update_timeline sampleFS "/tmp/qa" "símböls üñíčødé" "t1").1 = true ∧
    (update_timeline sampleFS "/tmp/qa" "símböls üñíčødé" "t1").2.statusFile
        "/tmp/qa" =
      some ((sampleFS.statusFile "/tmp/qa").getD []
        ++ [⟨"t1", "símböls üñíčødé"⟩]) ∧
    renderFile ((sampleFS.statusFile "/tmp/qa").getD []
        ++ [⟨"t1", "símböls üñíčødé"⟩]) =
      renderFile ((sampleFS.statusFile "/tmp/qa").getD [])
        ++ renderEntry ⟨"t1", "símböls üñíčødé"⟩ ∧
    "símböls üñíčødé".data <:+:
      (renderFile ((sampleFS.statusFile "/tmp/qa").getD []
        ++ [⟨"t1", "símböls üñíčødé"⟩])).data :=
  C7_round_trip sampleFS "/tmp/qa" "símböls üñíčødé" "t1" rfl

/-- C8: the analyzer and the summary generator are deterministic and free of
hidden state: the analyzer's output depends only on the logs of the queried
session, and the generator's output depends only on the record fields it
inspects, so identical inputs always give identical outputs. -/
theorem C8_deterministic :
    (∀ (r1 r2 : String → Option SessionDir) (sid : String),
      r1 sid = r2 sid → analyze r1 sid = analyze r2 sid) ∧
    (∀ a b : ActivityRecord, a.tools_used = b.tools_used →
      a.files_modified = b.files_modified → a.last_prompt = b.last_prompt →
      generate_summary a = generate_summary b) := by
  constructor
  · intro r1 r2 sid h
    unfold analyze
    rw [h]
  · intro a b h1 h2 h3
    simp [generate_summary, uiCond, docCond, hookCond, genericSummary,
      h1, h2, h3]

/-- Witness for C8: two log roots agreeing at `s1`, and two records agreeing
on every field the generator reads. -/
theorem C8_deterministic_witness :
    analyze malformedRoot "s1" = analyze otherRoot "s1" ∧
    generate_summary uiRecord =
      generate_summary { uiRecord with errors_encountered := true } :=
  ⟨C8_deterministic.1 malformedRoot otherRoot "s1" (by decide),
   C8_deterministic.2 uiRecord
     { uiRecord with errors_encountered := true } rfl rfl rfl⟩

namespace QA

/-- Embeds `QATestResult` from `src/qa_test_runner.py`; the wall-clock
`duration` and `timestamp` fields are outside the model and omitted. -/
structure QATestResult where
  name : String
  passed : Bool
  details : String
deriving DecidableEq, Repr

/-- The observable behaviour of one test function when called by the runner:
it either returns a `(passed, details)` pair or raises an exception carrying
a message. -/
inductive TestOutcome where
  | ok : Bool → String → TestOutcome
  | exn : String → TestOutcome
deriving DecidableEq, Repr

/-- Embeds the fields of `StopHookQARunner` that `run_test` and
`generate_report` read and write: the recorded results and the names of the
failed tests. -/
structure RunnerState where
  test_results : List QATestResult
  failed_tests : List String
deriving DecidableEq, Repr

/-- The freshly constructed runner: no results, no failed tests. -/
def initState : RunnerState := ⟨[], []⟩

/-- Embeds `StopHookQARunner.run_test`: the test function runs inside a
try/except; a normal return records its `(passed, details)` pair, appending
the name to `failed_tests` when it did not pass; an exception with message
`msg` records a failed result whose details are `"Exception: " ++ msg` and
appends the name to `failed_tests`.  Either way exactly one result is
appended to `test_results` and returned. -/
def run_test (st : RunnerState) (outcome : TestOutcome) (name : String) :
    QATestResult × RunnerState :=
  match outcome with
  | .ok passed details =>
    let result : QATestResult := ⟨name, passed, details⟩
    (result,
      { test_results := st.test_results ++ [result]
        failed_tests :=
          if passed then st.failed_tests
          else st.failed_tests ++ [name] })
  | .exn msg =>
    let result : QATestResult := ⟨name, false, "Exception: " ++ msg⟩
    (result,
      { test_results := st.test_results ++ [result]
        failed_tests := st.failed_tests ++ [name] })

/-- Runs a list of named tests in order from a given state, as the
orchestration methods of `StopHookQARunner` do. -/
def runAll (tests : List (String × TestOutcome)) (st : RunnerState) :
    RunnerState :=
  tests.foldl (fun s nt => (run_test s nt.2 nt.1).2) st

/-- Embeds `StopHookQARunner.generate_report`: with no recorded results the
success-rate division raises `ZeroDivisionError` (modelled as `none`);
otherwise the report's return value is true exactly when `failed_tests` is
empty. -/
def generate_report (st : RunnerState) : Option Bool :=
  if st.test_results.length = 0 then none
  else some (st.failed_tests.length = 0)

/-- The bookkeeping invariant of the runner: `failed_tests` holds exactly
the names of the recorded results that did not pass, in order. -/
def BookInv (st : RunnerState) : Prop :=
  st.failed_tests =
    (st.test_results.filter fun r => !r.passed).map QATestResult.name

/-- One `run_test` call preserves the bookkeeping invariant. -/
theorem run_test_inv (st : RunnerState) (outcome : TestOutcome)
    (name : String) (h : BookInv st) : BookInv (run_test st outcome name).2 := by
  unfold BookInv at h ⊢
  cases outcome with
  | ok passed details =>
    cases passed <;> simp [run_test, List.filter_append, h]
  | exn msg =>
    simp [run_test, List.filter_append, h]

/-- Running any test list preserves the bookkeeping invariant. -/
theorem runAll_inv (tests : List (String × TestOutcome)) (st : RunnerState)
    (h : BookInv st) : BookInv (runAll tests st) := by
  induction tests generalizing st with
  | nil => simpa [runAll] using h
  | cons t ts ih =>
    simp only [runAll, List.foldl_cons]
    exact ih _ (run_test_inv st t.2 t.1 h)

/-- Running a test list grows `test_results` by exactly one result per
test. -/
theorem runAll_length (tests : List (String × TestOutcome))
    (st : RunnerState) :
    (runAll tests st).test_results.length =
      st.test_results.length + tests.length := by
  induction tests generalizing st with
  | nil => simp [runAll]
  | cons t ts ih =>
    simp only [runAll, List.foldl_cons] at ih ⊢
    rw [ih]
    cases t.2 <;> simp [run_test] <;> omega

end QA

open QA

/-- C9: `run_test` never propagates an exception: for every state, outcome
and name it appends exactly one result — the returned one — to
`test_results`, and when the test function raised an exception the returned
result did not pass, its details hold the exception message, and the name
was appended to `failed_tests`. -/
theorem C9_run_test_total (st : RunnerState) (outcome : TestOutcome)
    (name : String) :
    (run_test st outcome name).2.test_results =
      st.test_results ++ [(run_test st outcome name).1] ∧
    (∀ msg, outcome = .exn msg →
      (run_test st outcome name).1.passed = false ∧
      (run_test st outcome name).1.details = "Exception: " ++ msg ∧
      msg.data <:+: (run_test st outcome name).1.details.data ∧
      (run_test st outcome name).2.failed_tests =
        st.failed_tests ++ [name]) := by
  constructor
  · cases outcome <;> simp [run_test]
  · intro msg hmsg
    subst hmsg
    refine ⟨rfl, rfl, ⟨"Exception: ".data, [], ?_⟩, rfl⟩
    simp [run_test, String.data_append]

/-- Witness for C9 at a concrete raising test. -/
theorem C9_run_test_total_witness :
    (run_test initState (.exn "boom") "t").1.passed = false ∧
    (run_test initState (.exn "boom") "t").1.details =
      "Exception: " ++ "boom" ∧
    "boom".data <:+: (run_test initState (.exn "boom") "t").1.details.data ∧
    (run_test initState (.exn "boom") "t").2.failed_tests =
      initState.failed_tests ++ ["t"] :=
  (C9_run_test_total initState (.exn "boom") "t").2 "boom" rfl

/-- C10: after running a non-empty test list, `generate_report` is defined
(no zero division) and returns true exactly when `failed_tests` is empty,
which in turn holds exactly when every recorded result passed. -/
theorem C10_report_iff_all_passed (tests : List (String × TestOutcome))
    (h : tests ≠ []) :
    (generate_report (runAll tests initState) = some true ↔
      (runAll tests initState).failed_tests = []) ∧
    ((runAll tests initState).failed_tests = [] ↔
      ∀ r ∈ (runAll tests initState).test_results, r.passed = true) := by
  have hlen := runAll_length tests initState
  have htl : tests.length ≠ 0 := fun hc => h (List.length_eq_zero.mp hc)
  have hne : (runAll tests initState).test_results.length ≠ 0 := by
    rw [hlen]
    simp only [initState, List.length_nil]
    omega
  have hinv : BookInv (runAll tests initState) :=
    runAll_inv tests initState (by simp [BookInv, initState])
  constructor
  · unfold generate_report
    rw [if_neg hne]
    constructor
    · intro hsome
      have hb := Option.some.inj hsome
      have : (runAll tests initState).failed_tests.length = 0 := of_decide_eq_true hb
      exact List.length_eq_zero.mp this
    · intro hnil
      simp [hnil]
  · unfold BookInv at hinv
    rw [hinv]
    simp [List.filter_eq_nil_iff]

/-- Witness for C10 at a concrete one-test run. -/
theorem C10_report_iff_all_passed_witness :
    (generate_report (runAll [("t1", .ok true "fine")] initState) =
        some true ↔
      (runAll [("t1", .ok true "fine")] initState).failed_tests = []) ∧
    ((runAll [("t1", .ok true "fine")] initState).failed_tests = [] ↔
      ∀ r ∈ (runAll [("t1", .ok true "fine")] initState).test_results,
        r.passed = true) :=
  C10_report_iff_all_passed [("t1", .ok true "fine")] (by decide)
